import Mathlib

/-!
Verification of the notification dispatch engine of the
ecommerce-microservices repository: event routing
(src/services/notification-service, event controller), the Redis-backed
notification store (config/redis.js), the Bull queue configuration
(queueService and constants), and the Handlebars template service.

JavaScript values with possibly-missing fields are embedded as Lean
structures of Option-typed fields; JS truthiness on strings is `jsTruthy`
(undefined and the empty string are falsy).  Synchronous throw sites
(property access on undefined, explicit ValidationError throws) are made
explicit in the return types.
-/

set_option linter.unusedVariables false

namespace ECommerce

/-- JS truthiness for an optional string: undefined and the empty string
are falsy, every other string is truthy. -/
def jsTruthy : Option String → Bool
  | none => false
  | some s => s != ""

/-- JS string interpolation of a possibly-undefined value: an undefined
value renders as the text undefined. -/
def jsShow : Option String → String
  | none => "undefined"
  | some s => s

/-- JS logical-or on optional strings (used for ADMIN_EMAIL || SMTP_USER). -/
def jsOr (a b : Option String) : Option String :=
  if jsTruthy a then a else b

/-- The user object carried in event payloads (fields may be absent). -/
structure UserData where
  id : Option String := none
  email : Option String := none
  firstName : Option String := none
  deriving DecidableEq, Repr

/-- The order object carried in event payloads. -/
structure OrderData where
  id : Option String := none
  total : Option Int := none
  status : Option String := none
  items : Option (List String) := none
  deriving DecidableEq, Repr

/-- The product object carried in product.low_stock payloads. -/
structure ProductData where
  id : Option String := none
  name : Option String := none
  deriving DecidableEq, Repr

/-- The data member of a POST /events request body.  Each field is
optional, as in the JS object. -/
structure EventData where
  user : Option UserData := none
  order : Option OrderData := none
  trackingNumber : Option String := none
  reason : Option String := none
  product : Option ProductData := none
  currentStock : Option Int := none
  threshold : Option Int := none
  action : Option String := none
  adminUser : Option UserData := none
  details : Option String := none
  deriving DecidableEq, Repr

/-- Process environment of the notification service (only the variables
the event handlers read). -/
structure Env where
  FRONTEND_URL : Option String := none
  ADMIN_EMAIL : Option String := none
  SMTP_USER : Option String := none
  deriving DecidableEq, Repr

/-- Errors thrown synchronously while processing an event: the explicit
ValidationError throws of processEvent, and the TypeError raised by a
property access on an undefined object inside a handler. -/
inductive JsError
  | validationError (msg : String)
  | typeError
  deriving DecidableEq, Repr

/-- Delivery channel of a submitted job (which of the two queues). -/
inductive Channel
  | email
  | inApp
  deriving DecidableEq, Repr

/-- A job submission as produced by the event handlers via addEmailJob /
addInAppJob: the queue (channel), the Bull job name, the action label the
handler pushes into its result, the queue priority option, and the payload
fields the claims read. -/
structure JobSubmission where
  channel : Channel
  jobType : String
  action : String
  priority : Int
  recipient : Option String := none
  template : Option String := none
  title : Option String := none
  message : Option String := none
  category : Option String := none
  actionUrl : Option String := none
  deriving DecidableEq, Repr

/-- EVENT_TYPES from utils/constants.js. -/
def EVENT_TYPES : List String :=
  ["user.registered", "order.created", "order.confirmed", "order.shipped",
   "order.delivered", "order.cancelled", "product.low_stock", "admin.action"]

/-- handleUserRegistered: welcome email (guarded by user.email and
user.firstName being truthy) plus an unconditional in-app welcome
notification.  Accessing user.email on an undefined user throws a
TypeError before any job is submitted. -/
def handleUserRegistered (env : Env) (d : EventData) :
    List JobSubmission × Option JsError :=
  match d.user with
  | none => ([], some .typeError)
  | some u =>
    let emailJobs : List JobSubmission :=
      if jsTruthy u.email && jsTruthy u.firstName then
        [{ channel := .email, jobType := "welcome-email", action := "welcome-email",
           priority := 10, recipient := u.email,
           title := some "welcome-email" }]
      else []
    let inApp : JobSubmission :=
      { channel := .inApp, jobType := "send-in-app", action := "welcome-notification",
        priority := 0, recipient := u.id,
        title := some "¡Bienvenido!",
        message := some ("Hola " ++ jsShow u.firstName ++ ", tu cuenta ha sido creada exitosamente."),
        category := some "account", actionUrl := some "/profile" }
    (emailJobs ++ [inApp], none)

/-- handleOrderCreated: order-confirmation email (guarded by user.email
and user.firstName) then an in-app notification whose message reads
order.id and order.total; an undefined order therefore throws after the
email job was already submitted. -/
def handleOrderCreated (env : Env) (d : EventData) :
    List JobSubmission × Option JsError :=
  match d.user with
  | none => ([], some .typeError)
  | some u =>
    let emailJobs : List JobSubmission :=
      if jsTruthy u.email && jsTruthy u.firstName then
        [{ channel := .email, jobType := "order-confirmation", action := "order-confirmation",
           priority := 15, recipient := u.email }]
      else []
    match d.order with
    | none => (emailJobs, some .typeError)
    | some o =>
      let inApp : JobSubmission :=
        { channel := .inApp, jobType := "send-in-app", action := "order-created-notification",
          priority := 0, recipient := u.id,
          title := some "Pedido confirmado",
          message := some ("Tu pedido #" ++ jsShow o.id ++ " por $" ++
            (match o.total with | none => "undefined" | some t => toString t) ++
            " ha sido confirmado."),
          category := some "order", actionUrl := some ("/orders/" ++ jsShow o.id) }
      (emailJobs ++ [inApp], none)

/-- handleOrderConfirmed: a single in-app notification; user.id is read
first, then order.id inside the message, so an undefined user or order
throws before the job is submitted. -/
def handleOrderConfirmed (env : Env) (d : EventData) :
    List JobSubmission × Option JsError :=
  match d.user with
  | none => ([], some .typeError)
  | some u =>
    match d.order with
    | none => ([], some .typeError)
    | some o =>
      ([{ channel := .inApp, jobType := "send-in-app", action := "order-confirmed-notification",
          priority := 0, recipient := u.id,
          title := some "Pedido en preparación",
          message := some ("Tu pedido #" ++ jsShow o.id ++ " está siendo preparado para envío."),
          category := some "order", actionUrl := some ("/orders/" ++ jsShow o.id) }], none)

/-- handleOrderShipped: shipped email (guarded by user.email and
user.firstName; its templateData reads order.id) and an in-app
notification whose message reads order.id and trackingNumber.  Whichever
branch runs, an undefined order throws before any job of this handler is
submitted. -/
def handleOrderShipped (env : Env) (d : EventData) :
    List JobSubmission × Option JsError :=
  match d.user with
  | none => ([], some .typeError)
  | some u =>
    match d.order with
    | none => ([], some .typeError)
    | some o =>
      let emailJobs : List JobSubmission :=
        if jsTruthy u.email && jsTruthy u.firstName then
          [{ channel := .email, jobType := "send-email", action := "order-shipped-email",
             priority := 15, recipient := u.email,
             template := some "order-shipped" }]
        else []
      let inApp : JobSubmission :=
        { channel := .inApp, jobType := "send-in-app", action := "order-shipped-notification",
          priority := 0, recipient := u.id,
          title := some "¡Pedido enviado! 📦",
          message := some ("Tu pedido #" ++ jsShow o.id ++
            " ha sido enviado. Número de seguimiento: " ++ jsShow d.trackingNumber),
          category := some "order",
          actionUrl := some ("/orders/" ++ jsShow o.id ++ "/tracking") }
      (emailJobs ++ [inApp], none)

/-- handleOrderDelivered: a single in-app notification reading user.id
and order.id. -/
def handleOrderDelivered (env : Env) (d : EventData) :
    List JobSubmission × Option JsError :=
  match d.user with
  | none => ([], some .typeError)
  | some u =>
    match d.order with
    | none => ([], some .typeError)
    | some o =>
      ([{ channel := .inApp, jobType := "send-in-app", action := "order-delivered-notification",
          priority := 0, recipient := u.id,
          title := some "¡Pedido entregado! ✅",
          message := some ("Tu pedido #" ++ jsShow o.id ++ " ha sido entregado exitosamente."),
          category := some "order", actionUrl := some ("/orders/" ++ jsShow o.id ++ "/review") }], none)

/-- handleOrderCancelled: a single in-app notification reading user.id
and order.id; the optional reason is appended when truthy. -/
def handleOrderCancelled (env : Env) (d : EventData) :
    List JobSubmission × Option JsError :=
  match d.user with
  | none => ([], some .typeError)
  | some u =>
    match d.order with
    | none => ([], some .typeError)
    | some o =>
      ([{ channel := .inApp, jobType := "send-in-app", action := "order-cancelled-notification",
          priority := 0, recipient := u.id,
          title := some "Pedido cancelado",
          message := some ("Tu pedido #" ++ jsShow o.id ++ " ha sido cancelado. " ++
            (if jsTruthy d.reason then "Razón: " ++ jsShow d.reason else "")),
          category := some "order", actionUrl := some ("/orders/" ++ jsShow o.id) }], none)

/-- handleProductLowStock: one unconditional admin alert email addressed
to ADMIN_EMAIL || SMTP_USER; product.name is read inside the message, so
an undefined product throws before the job is submitted. -/
def handleProductLowStock (env : Env) (d : EventData) :
    List JobSubmission × Option JsError :=
  match d.product with
  | none => ([], some .typeError)
  | some p =>
    ([{ channel := .email, jobType := "send-email", action := "low-stock-alert",
        priority := 10, recipient := jsOr env.ADMIN_EMAIL env.SMTP_USER,
        template := some "admin-alert",
        message := some ("El producto \"" ++ jsShow p.name ++ "\" tiene stock bajo") }], none)

/-- handleAdminAction: one admin alert email, only when ADMIN_EMAIL is
truthy; adminUser.email is read inside the message. -/
def handleAdminAction (env : Env) (d : EventData) :
    List JobSubmission × Option JsError :=
  if jsTruthy env.ADMIN_EMAIL then
    match d.adminUser with
    | none => ([], some .typeError)
    | some au =>
      ([{ channel := .email, jobType := "send-email", action := "admin-action-alert",
          priority := 5, recipient := env.ADMIN_EMAIL,
          template := some "admin-alert",
          message := some (jsShow au.email ++ " realizó: " ++ jsShow d.action) }], none)
  else ([], none)

/-- processEvent from the event controller: validates that eventType is
one of EVENT_TYPES (a missing or empty eventType is also rejected, being
absent from the list) and that data is present, then dispatches to the
per-type handler.  The result is the list of jobs submitted before
control returned, paired with the error that ended processing, if any. -/
def processEvent (env : Env) (eventType : Option String) (data : Option EventData) :
    List JobSubmission × Option JsError :=
  match eventType with
  | none => ([], some (.validationError "Invalid or missing event type"))
  | some et =>
    if ¬ (EVENT_TYPES.contains et) then
      ([], some (.validationError "Invalid or missing event type"))
    else
      match data with
      | none => ([], some (.validationError "Event data is required"))
      | some d =>
        match et with
        | "user.registered" => handleUserRegistered env d
        | "order.created" => handleOrderCreated env d
        | "order.confirmed" => handleOrderConfirmed env d
        | "order.shipped" => handleOrderShipped env d
        | "order.delivered" => handleOrderDelivered env d
        | "order.cancelled" => handleOrderCancelled env d
        | "product.low_stock" => handleProductLowStock env d
        | "admin.action" => handleAdminAction env d
        | _ => ([], some (.validationError "Unhandled event type"))

/-- getEventRequiredFields as a presence predicate on a payload: the
required-field list the service itself publishes for each event type
(fields marked with a question mark are optional and ignored). -/
def requiredFieldsPresent : String → EventData → Bool
  | "user.registered", d =>
      d.user.any fun u => u.id.isSome && u.email.isSome && u.firstName.isSome
  | "order.created", d =>
      (d.order.any fun o => o.id.isSome && o.total.isSome && o.items.isSome) &&
      (d.user.any fun u => u.id.isSome && u.email.isSome)
  | "order.confirmed", d =>
      (d.order.any fun o => o.id.isSome) && (d.user.any fun u => u.id.isSome)
  | "order.shipped", d =>
      (d.order.any fun o => o.id.isSome) && (d.user.any fun u => u.id.isSome) &&
      d.trackingNumber.isSome
  | "order.delivered", d =>
      (d.order.any fun o => o.id.isSome) && (d.user.any fun u => u.id.isSome)
  | "order.cancelled", d =>
      (d.order.any fun o => o.id.isSome) && (d.user.any fun u => u.id.isSome)
  | "product.low_stock", d =>
      (d.product.any fun p => p.id.isSome && p.name.isSome) &&
      d.currentStock.isSome && d.threshold.isSome
  | "admin.action", d =>
      d.action.isSome && (d.adminUser.any fun a => a.email.isSome)
  | _, _ => true

/-- Actions of the email jobs in a submission list, in order. -/
def emailActions (jobs : List JobSubmission) : List String :=
  (jobs.filter fun j => j.channel == Channel.email).map fun j => j.action

/-- Actions of the in-app jobs in a submission list, in order. -/
def inAppActions (jobs : List JobSubmission) : List String :=
  (jobs.filter fun j => j.channel == Channel.inApp).map fun j => j.action

/-- The email-job guard shared by the user.registered, order.created and
order.shipped handlers: user.email and user.firstName both truthy. -/
def emailGuard (d : EventData) : Bool :=
  d.user.any fun u => jsTruthy u.email && jsTruthy u.firstName

/-! ## Notification store (config/redis.js)

The Redis keyspace relevant to the store is embedded as three association
lists: detail records keyed by the (userId, id) pair standing for the key
notification:userId:id (paired with their absolute expiry time, i.e. the
write time plus the TTL passed to setEx), per-user feed lists keyed by
userId standing for notifications:userId (head = most recent lPush), and
the feed expiry times.  `now` is the wall-clock instant of a call. -/

/-- A stored in-app notification record, as built by the in-app worker
(processors/inAppProcessor.js) and serialized to JSON.  Timestamps are
abstracted to naturals. -/
structure Notification where
  id : String
  userId : String
  title : String
  message : String
  category : String
  priority : String
  data : List (String × String)
  actionUrl : Option String
  status : String
  createdAt : Nat
  readAt : Option Nat
  deriving DecidableEq, Repr

/-- Association-list lookup (last write wins: entries are prepended). -/
def kvGet {κ α : Type} [DecidableEq κ] (l : List (κ × α)) (k : κ) : Option α :=
  (l.find? fun e => e.1 == k).map fun e => e.2

/-- Association-list write: prepend the new binding and drop the old one. -/
def kvSet {κ α : Type} [DecidableEq κ] (l : List (κ × α)) (k : κ) (v : α) : List (κ × α) :=
  (k, v) :: l.filter fun e => e.1 != k

/-- Association-list delete (redis DEL). -/
def kvDel {κ α : Type} [DecidableEq κ] (l : List (κ × α)) (k : κ) : List (κ × α) :=
  l.filter fun e => e.1 != k

/-- The embedded Redis state. -/
structure Store where
  details : List ((String × String) × (Notification × Nat))
  feeds : List (String × List String)
  feedExpires : List (String × Nat)
  deriving DecidableEq, Repr

/-- The 7-day TTL (86400 * 7 seconds) used by every store write. -/
def SEVEN_DAYS : Nat := 86400 * 7

/-- storeInAppNotification: setEx the detail record with the 7-day TTL,
lPush the id onto the head of the user feed, refresh the feed TTL. -/
def storeInAppNotification (s : Store) (n : Notification) (now : Nat) : Store :=
  { details := kvSet s.details (n.userId, n.id) (n, now + SEVEN_DAYS),
    feeds := kvSet s.feeds n.userId (n.id :: (kvGet s.feeds n.userId).getD []),
    feedExpires := kvSet s.feedExpires n.userId (now + SEVEN_DAYS) }

/-- lRange(0, limit - 1) on a feed list: for limit at least 1 this is the
first limit entries; for limit = 0 the stop index is -1 and redis returns
the whole list. -/
def lRangeIds (ids : List String) (limit : Nat) : List String :=
  if limit = 0 then ids else ids.take limit

/-- Stable insertion step for the createdAt-descending sort. -/
def insertDesc (n : Notification) : List Notification → List Notification
  | [] => [n]
  | m :: ms => if n.createdAt ≤ m.createdAt then m :: insertDesc n ms else n :: m :: ms

/-- The sort by createdAt descending applied before returning a feed. -/
def sortByCreatedAtDesc (l : List Notification) : List Notification :=
  l.foldr insertDesc []

/-- getUserNotifications(userId, limit): fetch the first limit feed ids,
resolve each to its detail record, drop ids whose detail is missing,
sort the survivors by createdAt descending. -/
def getUserNotifications (s : Store) (userId : String) (limit : Nat) : List Notification :=
  sortByCreatedAtDesc
    ((lRangeIds ((kvGet s.feeds userId).getD []) limit).filterMap
      fun i => (kvGet s.details (userId, i)).map fun p => p.1)

/-- The error thrown by markNotificationAsRead on a missing record; the
controller maps it to NotFoundError (404). -/
inductive StoreError
  | notFound
  deriving DecidableEq, Repr

/-- markNotificationAsRead(userId, notificationId): get the detail
record, throw Notification-not-found when absent, else set status to READ
and readAt to now, and setEx the updated record with the full 7-day TTL
again.  Returns the updated record as the code does. -/
def markNotificationAsRead (s : Store) (userId notificationId : String) (now : Nat) :
    Except StoreError (Notification × Store) :=
  match kvGet s.details (userId, notificationId) with
  | none => .error .notFound
  | some (n, _) =>
    let n2 := { n with status := "READ", readAt := some now }
    .ok (n2, { s with details := kvSet s.details (userId, notificationId) (n2, now + SEVEN_DAYS) })

/-- deleteNotification(userId, notificationId): DEL the detail key and
lRem all occurrences of the id from the user feed. -/
def deleteNotification (s : Store) (userId notificationId : String) : Store :=
  { s with
    details := kvDel s.details (userId, notificationId),
    feeds := kvSet s.feeds userId
      (((kvGet s.feeds userId).getD []).filter fun i => i != notificationId) }

/-- getUnreadCount(userId): recomputed from getUserNotifications with its
default limit of 50, counting records whose status is unread. -/
def getUnreadCount (s : Store) (userId : String) : Nat :=
  ((getUserNotifications s userId 50).filter fun n => n.status == "unread").length

/-- The unread total over the whole feed (every feed id whose detail
record resolves), with no 50-entry cutoff; used to compare against
getUnreadCount. -/
def totalUnread (s : Store) (userId : String) : Nat :=
  ((((kvGet s.feeds userId).getD []).filterMap
      fun i => (kvGet s.details (userId, i)).map fun p => p.1).filter
    fun n => n.status == "unread").length

/-- getUserNotificationsController: the response data of
GET /notifications/user/:userId — the (optionally unread-filtered) feed
page, the unread count, and the hasMore flag. -/
def getUserNotificationsController (s : Store) (userId : String) (limit : Nat)
    (unreadOnly : Bool) : List Notification × Nat × Bool :=
  let notifications := getUserNotifications s userId limit
  let filtered := if unreadOnly then notifications.filter (fun n => n.status == "unread")
                  else notifications
  (filtered, getUnreadCount s userId, decide (notifications.length ≥ limit))

/-- Store well-formedness: every detail record is filed under its own id
(append always uses the key (n.userId, n.id)). -/
def Store.wf (s : Store) : Prop :=
  ∀ e ∈ s.details, (e.2.1).id = e.1.2 ∧ (e.2.1).userId = e.1.1

instance (s : Store) : Decidable s.wf :=
  inferInstanceAs (Decidable (∀ e ∈ s.details, (e.2.1).id = e.1.2 ∧ (e.2.1).userId = e.1.1))

/-! ## Queue runtime

The Bull queue library that executes jobs is a third-party dependency not
present in src; only its configuration (utils/constants.js RETRY_SETTINGS,
queueService defaultJobOptions and wrappers) is repository code.  The
runtime below is therefore modelled from the spec, and the repository's
own constants and wrapper functions are embedded on top of it. -/

/-- Job lifecycle states (spec 4.2 state machine; the active and stalled
refinements are not needed by the claims settled here). -/
inductive JobState
  | waiting
  | completed
  | failed
  deriving DecidableEq, Repr

/-- Backoff kinds configured in RETRY_SETTINGS. -/
inductive BackoffType
  | fixed
  | exponential
  deriving DecidableEq, Repr

/-- Modelled from the spec: a queued job with its retry bookkeeping.
eligibleAt is the absolute instant the job becomes eligible (submission
time plus delayMs, or the backoff target after a retryable failure);
submitIndex records submission order for the FIFO tie-break. -/
structure QJob where
  id : Nat
  name : String
  priority : Int
  eligibleAt : Nat
  submitIndex : Nat
  attemptsMade : Nat
  maxAttempts : Nat
  backoffType : BackoffType
  backoffDelay : Nat
  state : JobState
  deriving DecidableEq, Repr

/-- Modelled from the spec: one priority queue with its configured
default job options (attempts, backoff, bounded failed history). -/
structure BullQueue where
  jobs : List QJob
  nextId : Nat
  defaultAttempts : Nat
  defaultBackoffType : BackoffType
  defaultBackoffDelay : Nat
  removeOnFail : Nat
  deriving DecidableEq, Repr

/-- One retry policy row of RETRY_SETTINGS in utils/constants.js. -/
structure RetryPolicy where
  attempts : Nat
  backoffType : BackoffType
  backoffDelay : Nat
  deriving DecidableEq, Repr

/-- RETRY_SETTINGS.EMAIL: 3 attempts, exponential backoff from 5000 ms. -/
def RETRY_SETTINGS_EMAIL : RetryPolicy := ⟨3, .exponential, 5000⟩

/-- RETRY_SETTINGS.IN_APP: 2 attempts, fixed 2000 ms backoff. -/
def RETRY_SETTINGS_IN_APP : RetryPolicy := ⟨2, .fixed, 2000⟩

/-- The email queue as configured in queueService initializeQueues:
RETRY_SETTINGS.EMAIL defaults and removeOnFail 20. -/
def emailQueueInit : BullQueue :=
  { jobs := [], nextId := 1,
    defaultAttempts := RETRY_SETTINGS_EMAIL.attempts,
    defaultBackoffType := RETRY_SETTINGS_EMAIL.backoffType,
    defaultBackoffDelay := RETRY_SETTINGS_EMAIL.backoffDelay,
    removeOnFail := 20 }

/-- The in-app queue as configured in initializeQueues:
RETRY_SETTINGS.IN_APP defaults and removeOnFail 50. -/
def inAppQueueInit : BullQueue :=
  { jobs := [], nextId := 1,
    defaultAttempts := RETRY_SETTINGS_IN_APP.attempts,
    defaultBackoffType := RETRY_SETTINGS_IN_APP.backoffType,
    defaultBackoffDelay := RETRY_SETTINGS_IN_APP.backoffDelay,
    removeOnFail := 50 }

/-- Modelled from the spec: queue.add submits a fresh Waiting job with
the queue's default retry options; it becomes eligible at now + delayMs. -/
def qAdd (q : BullQueue) (name : String) (priority : Int) (delay : Nat) (now : Nat) :
    QJob × BullQueue :=
  let j : QJob :=
    { id := q.nextId, name := name, priority := priority,
      eligibleAt := now + delay, submitIndex := q.jobs.length,
      attemptsMade := 0, maxAttempts := q.defaultAttempts,
      backoffType := q.defaultBackoffType, backoffDelay := q.defaultBackoffDelay,
      state := .waiting }
  (j, { q with jobs := q.jobs ++ [j], nextId := q.nextId + 1 })

/-- addEmailJob(type, data, options) from queueService: submits to the
email queue with priority options.priority || 0 and delay
options.delay || 0. -/
def addEmailJob (q : BullQueue) (tp : String) (priority : Option Int) (delay : Option Nat)
    (now : Nat) : QJob × BullQueue :=
  qAdd q tp (priority.getD 0) (delay.getD 0) now

/-- addInAppJob(data, options) from queueService: submits a send-in-app
job to the in-app queue with the same option defaults. -/
def addInAppJob (q : BullQueue) (priority : Option Int) (delay : Option Nat)
    (now : Nat) : QJob × BullQueue :=
  qAdd q "send-in-app" (priority.getD 0) (delay.getD 0) now

/-- getPriorityValue from the notification controller: the numeric queue
priority of each named level (unknown names default to 5). -/
def getPriorityValue : String → Int
  | "LOW" => 1
  | "MEDIUM" => 5
  | "HIGH" => 10
  | "CRITICAL" => 20
  | _ => 5

/-- Modelled from the spec: a job is eligible for dequeue when it is
Waiting and its eligibility instant has passed. -/
def eligible (j : QJob) (now : Nat) : Bool :=
  j.state == .waiting && decide (j.eligibleAt ≤ now)

/-- Modelled from the spec: between two candidates in submission order,
keep the later one only when its priority is strictly higher (so the
earlier submission wins ties). -/
def pickBetter (a b : QJob) : QJob :=
  if b.priority > a.priority then b else a

/-- Modelled from the spec: the next job dequeued at an instant — the
highest-priority eligible job, ties broken by submission order. -/
def qNextJob (q : BullQueue) (now : Nat) : Option QJob :=
  match q.jobs.filter (fun j => eligible j now) with
  | [] => none
  | j :: js => some (js.foldl pickBetter j)

/-- Modelled from the spec: backoff before attempt number att + 1 —
fixed delay, or delay * 2 ^ (att - 1) for the exponential email schedule
(5 s, 10 s, 20 s). -/
def backoffFor (bt : BackoffType) (delay att : Nat) : Nat :=
  match bt with
  | .fixed => delay
  | .exponential => delay * 2 ^ (att - 1)

/-- Modelled from the spec: a processing failure of the named job at an
instant — below maxAttempts the job returns to Waiting, eligible again
after its backoff; at maxAttempts it reaches terminal Failed. -/
def qFailJob (q : BullQueue) (jobId : Nat) (now : Nat) : BullQueue :=
  { q with jobs := q.jobs.map fun j =>
      if j.id == jobId && j.state == JobState.waiting then
        let att := j.attemptsMade + 1
        if att < j.maxAttempts then
          { j with attemptsMade := att, state := .waiting,
                   eligibleAt := now + backoffFor j.backoffType j.backoffDelay att }
        else
          { j with attemptsMade := att, state := .failed }
      else j }

/-- A sequence of processing failures of one job. -/
def failNTimes (q : BullQueue) (jobId : Nat) (ts : List Nat) : BullQueue :=
  ts.foldl (fun acc t => qFailJob acc jobId t) q

/-- Modelled from the spec: getFailed — the bounded failed history, the
last removeOnFail terminally failed jobs in submission order. -/
def qGetFailed (q : BullQueue) : List QJob :=
  ((q.jobs.filter fun j => j.state == JobState.failed).reverse.take q.removeOnFail).reverse

/-- Modelled from the spec: job.retry() re-submits a failed job with its
attempt counter reset. -/
def jobRetry (j : QJob) : QJob :=
  { j with state := .waiting, attemptsMade := 0 }

/-- retryFailedJobs from queueService: iterate over getFailed() of a
queue and call job.retry() on each, returning the retried count. -/
def retryFailedJobs (q : BullQueue) : BullQueue × Nat :=
  let ids := (qGetFailed q).map fun j => j.id
  ({ q with jobs := q.jobs.map fun j => if ids.contains j.id then jobRetry j else j },
   ids.length)

/-- Look a job up by id in a queue. -/
def getJob (q : BullQueue) (jobId : Nat) : Option QJob :=
  q.jobs.find? fun j => j.id == jobId

/-! ## Template service (services/templateService.js)

Handlebars compilation/rendering works over an abstract data map; the
repository ships no .hbs template files (there is no templates directory
in the service), so every file read resolves to ENOENT in the deployed
layout.  The file system and the compiler are abstracted as an
environment so the control flow of loadTemplate / getFallbackTemplate /
renderTemplate is embedded exactly. -/

/-- Data passed to a template: a flat field map plus the items list used
by the order-confirmation each-block. -/
structure TemplateData where
  fields : List (String × String)
  items : List (List (String × String))
  deriving DecidableEq, Repr

/-- Handlebars field interpolation: a missing key renders as empty. -/
def hbGet (d : TemplateData) (k : String) : String :=
  (kvGet d.fields k).getD ""

/-- Field lookup inside one item of an each-block. -/
def hbGetItem (it : List (String × String)) (k : String) : String :=
  (kvGet it k).getD ""

/-- The locale-aware currency helper (Intl.NumberFormat es-PE / PEN);
its exact numeral shaping is outside the embedding, only that it is a
total string-producing helper matters to the claims. -/
def formatCurrency (v : String) : String :=
  "PEN " ++ v

/-- A compiled template: a total-or-throwing renderer over the data. -/
def CompiledTemplate : Type := TemplateData → Except Unit String

/-- Outcome of fs.readFile on a template path. -/
inductive FileRead
  | content (src : String)
  | enoent
  | ioError
  deriving Repr

/-- The ambient state loadTemplate runs against: the template files on
disk, the handlebars compiler (which may throw on a bad source), and the
process-lifetime template cache. -/
structure TemplateEnv where
  read : String → FileRead
  compile : String → Except Unit CompiledTemplate
  cache : String → Option CompiledTemplate

/-- The div opening every built-in fallback body (and the diagnostic
body) starts with. -/
def divOpen : String :=
  "<div style=\"font-family: Arial, sans-serif; max-width: 600px; margin: 0 auto;\">"

/-- The welcome fallback template of getFallbackTemplate. -/
def fbWelcome : CompiledTemplate := fun d => .ok
  (divOpen ++
   "<h1 style=\"color: #4F46E5;\">¡Bienvenido " ++ hbGet d "firstName" ++ "!</h1>" ++
   "<p>Gracias por registrarte en nuestra plataforma de e-commerce.</p>" ++
   "<p>Tu cuenta ha sido creada exitosamente.</p>" ++
   "<a href=\"" ++ hbGet d "loginUrl" ++ "\">Iniciar Sesión</a>" ++
   "<p>Si tienes alguna pregunta, no dudes en contactarnos.</p></div>")

/-- One row of the order-confirmation each-block. -/
def fbOrderItemRow (it : List (String × String)) : String :=
  "<div><p><strong>" ++ hbGetItem it "productName" ++ "</strong></p>" ++
  "<p>Cantidad: " ++ hbGetItem it "quantity" ++ " - " ++
  formatCurrency (hbGetItem it "price") ++ "</p>" ++
  "<p>Total: " ++ formatCurrency (hbGetItem it "total") ++ "</p></div>"

/-- The order-confirmation fallback template. -/
def fbOrderConfirmation : CompiledTemplate := fun d => .ok
  (divOpen ++
   "<h1 style=\"color: #059669;\">¡Gracias por tu pedido!</h1>" ++
   "<p>Hola " ++ hbGet d "firstName" ++ ",</p>" ++
   "<p>Tu pedido <strong>#" ++ hbGet d "orderId" ++ "</strong> ha sido confirmado.</p>" ++
   "<div><h2>Detalles del pedido:</h2>" ++
   String.join (d.items.map fbOrderItemRow) ++
   "<div><strong>Total del pedido: " ++ formatCurrency (hbGet d "total") ++
   "</strong></div></div>" ++
   "<p>Te notificaremos cuando tu pedido sea enviado.</p>" ++
   "<a href=\"" ++ hbGet d "trackingUrl" ++ "\">Ver Pedido</a></div>")

/-- The order-shipped fallback template. -/
def fbOrderShipped : CompiledTemplate := fun d => .ok
  (divOpen ++
   "<h1 style=\"color: #DC2626;\">¡Tu pedido está en camino! 📦</h1>" ++
   "<p>Hola " ++ hbGet d "firstName" ++ ",</p>" ++
   "<p>Tu pedido <strong>#" ++ hbGet d "orderId" ++ "</strong> ha sido enviado.</p>" ++
   "<div><p><strong>Número de seguimiento:</strong> " ++ hbGet d "trackingNumber" ++ "</p>" ++
   "<p><strong>Entrega estimada:</strong> " ++ hbGet d "estimatedDelivery" ++ "</p></div>" ++
   "<a href=\"" ++ hbGet d "trackingUrl" ++ "\">Rastrear Pedido</a></div>")

/-- The admin-alert fallback template (the if-block renders its body when
the data field is truthy, i.e. present and non-empty here). -/
def fbAdminAlert : CompiledTemplate := fun d => .ok
  (divOpen ++
   "<h1 style=\"color: #EF4444;\">🚨 Alerta del Sistema</h1>" ++
   "<p><strong>Tipo de alerta:</strong> " ++ hbGet d "alertType" ++ "</p>" ++
   "<p><strong>Mensaje:</strong> " ++ hbGet d "message" ++ "</p>" ++
   "<p><strong>Timestamp:</strong> " ++ hbGet d "timestamp" ++ "</p>" ++
   (if hbGet d "data" != "" then
      "<div><h3>Datos adicionales:</h3><pre>" ++ hbGet d "data" ++ "</pre></div>"
    else "") ++
   "<a href=\"" ++ hbGet d "dashboardUrl" ++ "\">Ver Dashboard</a></div>")

/-- The generic passthrough the fallback set falls back to for a name
outside the built-in four; it echoes the templateName and content fields
of the data map. -/
def fbGeneric : CompiledTemplate := fun d => .ok
  (divOpen ++
   "<h1>Notificación</h1>" ++
   "<p>Template no encontrado: " ++ hbGet d "templateName" ++ "</p>" ++
   "<p>Contenido: " ++ hbGet d "content" ++ "</p></div>")

/-- getFallbackTemplate: the four built-ins keyed by name, then the
generic passthrough. -/
def getFallbackTemplate (templateName : String) : CompiledTemplate :=
  if templateName = "welcome" then fbWelcome
  else if templateName = "order-confirmation" then fbOrderConfirmation
  else if templateName = "order-shipped" then fbOrderShipped
  else if templateName = "admin-alert" then fbAdminAlert
  else fbGeneric

/-- loadTemplate: serve from the cache; else read the file and compile
it (a compile failure is rethrown); on ENOENT return the fallback; any
other read error is rethrown. -/
def loadTemplate (env : TemplateEnv) (templateName : String) :
    Except Unit CompiledTemplate :=
  match env.cache templateName with
  | some t => .ok t
  | none =>
    match env.read templateName with
    | .content src => env.compile src
    | .enoent => .ok (getFallbackTemplate templateName)
    | .ioError => .error ()

/-- A minimal JSON rendering of the template data, standing for
JSON.stringify(data) in the diagnostic body. -/
def jsonStringify (d : TemplateData) : String :=
  "\x7b" ++ String.join (d.fields.map fun p => "\"" ++ p.1 ++ "\": \"" ++ p.2 ++ "\", ") ++ "\x7d"

/-- The diagnostic body renderTemplate returns when anything throws. -/
def diagnosticHtml (d : TemplateData) : String :=
  divOpen ++
  "<h1>Notificación</h1><p>Error al procesar la plantilla.</p>" ++
  "<p>Datos: " ++ jsonStringify d ++ "</p></div>"

/-- renderTemplate(templateName, data): load (or fall back), apply the
template to the data, and catch every error by returning the diagnostic
body instead — the function is total. -/
def renderTemplate (env : TemplateEnv) (templateName : String) (d : TemplateData) : String :=
  match loadTemplate env templateName with
  | .error _ => diagnosticHtml d
  | .ok t =>
    match t d with
    | .ok html => html
    | .error _ => diagnosticHtml d

/-! ## Concrete instances used by counterexamples and witnesses -/

/-- An environment with no configured variables. -/
def emptyEnv : Env := {}

/-- An environment with an admin address configured. -/
def adminEnv : Env := { ADMIN_EMAIL := some "admin@shop.com" }

/-- An order.created payload carrying every field of the published
required-field list (order.id, order.total, order.items, user.id,
user.email) but no user.firstName. -/
def orderCreatedNoFirstName : EventData :=
  { order := some { id := some "o1", total := some 100, items := some ["item1"] },
    user := some { id := some "u1", email := some "a@b.com" } }

/-- A fully valid order.created payload (firstName present too). -/
def orderCreatedFull : EventData :=
  { order := some { id := some "o1", total := some 100, items := some ["item1"] },
    user := some { id := some "u1", email := some "a@b.com", firstName := some "Ann" } }

/-- A user.registered payload whose user object misses the required
user.email and user.firstName fields. -/
def userRegisteredIdOnly : EventData :=
  { user := some { id := some "u1" } }

/-- An unread notification record as the in-app worker builds one. -/
def sampleNotification : Notification :=
  { id := "n1", userId := "u1", title := "¡Bienvenido!",
    message := "Hola Ann, tu cuenta ha sido creada exitosamente.",
    category := "account", priority := "MEDIUM", data := [], actionUrl := some "/profile",
    status := "unread", createdAt := 0, readAt := none }

/-- The empty store. -/
def emptyStore : Store := { details := [], feeds := [], feedExpires := [] }

/-- A store holding sampleNotification, appended at instant 0 (so its
detail record expires at SEVEN_DAYS). -/
def oneNotifStore : Store := storeInAppNotification emptyStore sampleNotification 0

/-- An unread notification with a given id, for the 51-entry feed. -/
def mkUnread (i : String) : Notification :=
  { id := i, userId := "u1", title := "t", message := "m", category := "system",
    priority := "MEDIUM", data := [], actionUrl := none, status := "unread",
    createdAt := 0, readAt := none }

/-- A store whose u1 feed holds 51 unread notifications, every detail
record present. -/
def fiftyOneStore : Store :=
  { details := (List.range 51).map fun k => (("u1", toString k), (mkUnread (toString k), 0)),
    feeds := [("u1", (List.range 51).map fun k => toString k)],
    feedExpires := [("u1", 0)] }

/-- A template environment with no template files on disk (the
repository ships none) and a cold cache; the compiler is never reached. -/
def noFilesTemplateEnv : TemplateEnv :=
  { read := fun _ => .enoent,
    compile := fun _ => .error (),
    cache := fun _ => none }

/-- A template environment whose cached template throws when applied,
to exercise the catch-all diagnostic path. -/
def throwingTemplateEnv : TemplateEnv :=
  { read := fun _ => .enoent,
    compile := fun _ => .error (),
    cache := fun _ => some (fun _ => .error ()) }

/-- Sample template data. -/
def sampleTemplateData : TemplateData :=
  { fields := [("firstName", "Ann"), ("orderId", "o1")], items := [] }

/-- The email queue after one job is submitted and then fails three
times (at instants t1, t2, t3). -/
def emailFailScenario (tp : String) (pr : Option Int) (delay : Option Nat)
    (now t1 t2 t3 : Nat) : BullQueue :=
  failNTimes (addEmailJob emailQueueInit tp pr delay now).2
    (addEmailJob emailQueueInit tp pr delay now).1.id [t1, t2, t3]

/-- The in-app queue after one job is submitted and then fails twice. -/
def inAppFailScenario (pr : Option Int) (delay : Option Nat)
    (now s1 s2 : Nat) : BullQueue :=
  failNTimes (addInAppJob inAppQueueInit pr delay now).2
    (addInAppJob inAppQueueInit pr delay now).1.id [s1, s2]

/-- A two-job queue: a LOW-priority job submitted first and a CRITICAL
one second, both immediately eligible. -/
def twoJobQueue : BullQueue :=
  (qAdd (qAdd emailQueueInit "send-email" (getPriorityValue "LOW") 0 0).2
    "send-email" (getPriorityValue "CRITICAL") 0 0).2

/-- The CRITICAL-priority job of twoJobQueue (submitted second). -/
def criticalJob : QJob :=
  (qAdd (qAdd emailQueueInit "send-email" (getPriorityValue "LOW") 0 0).2
    "send-email" (getPriorityValue "CRITICAL") 0 0).1

/-! ## Association-list and sorting lemmas -/

theorem find?_filter_keep {κ α : Type} [DecidableEq κ] (l : List (κ × α)) (k k2 : κ)
    (h : k2 ≠ k) :
    (l.filter fun e => e.1 != k).find? (fun e => e.1 == k2) =
      l.find? (fun e => e.1 == k2) := by
  have hbe : (k == k2) = false := by
    simpa using Ne.symm h
  induction l with
  | nil => simp
  | cons e es ih =>
    by_cases h2 : e.1 = k2
    · have hk : e.1 ≠ k := by simpa [h2] using h
      simp [List.filter_cons, List.find?_cons, hk, h2, h]
    · by_cases hk : e.1 = k
      · simp [List.filter_cons, List.find?_cons, hk, h2, ih, hbe]
      · simp [List.filter_cons, List.find?_cons, hk, h2, ih]

theorem find?_filter_self {κ α : Type} [DecidableEq κ] (l : List (κ × α)) (k : κ) :
    (l.filter fun e => e.1 != k).find? (fun e => e.1 == k) = none := by
  induction l with
  | nil => simp
  | cons e es ih =>
    by_cases hk : e.1 = k
    · simp [List.filter_cons, hk, ih]
    · simp [List.filter_cons, List.find?_cons, hk, ih]

theorem kvGet_kvSet_same {κ α : Type} [DecidableEq κ] (l : List (κ × α)) (k : κ) (v : α) :
    kvGet (kvSet l k v) k = some v := by
  simp [kvGet, kvSet, List.find?_cons]

theorem kvGet_kvSet_ne {κ α : Type} [DecidableEq κ] (l : List (κ × α)) (k k2 : κ) (v : α)
    (h : k2 ≠ k) : kvGet (kvSet l k v) k2 = kvGet l k2 := by
  have hbe : (k == k2) = false := by simpa using Ne.symm h
  simp [kvGet, kvSet, List.find?_cons, hbe, find?_filter_keep l k k2 h]

theorem kvGet_kvDel_same {κ α : Type} [DecidableEq κ] (l : List (κ × α)) (k : κ) :
    kvGet (kvDel l k) k = none := by
  simp [kvGet, kvDel, find?_filter_self]

theorem kvGet_kvDel_ne {κ α : Type} [DecidableEq κ] (l : List (κ × α)) (k k2 : κ)
    (h : k2 ≠ k) : kvGet (kvDel l k) k2 = kvGet l k2 := by
  simp [kvGet, kvDel, find?_filter_keep l k k2 h]

theorem mem_insertDesc (a n : Notification) (l : List Notification) :
    a ∈ insertDesc n l ↔ a = n ∨ a ∈ l := by
  induction l with
  | nil => simp [insertDesc]
  | cons m ms ih =>
    by_cases h : n.createdAt ≤ m.createdAt
    · simp only [insertDesc, if_pos h, List.mem_cons, ih]
      tauto
    · simp only [insertDesc, if_neg h, List.mem_cons]

theorem mem_sortByCreatedAtDesc (a : Notification) (l : List Notification) :
    a ∈ sortByCreatedAtDesc l ↔ a ∈ l := by
  induction l with
  | nil => simp [sortByCreatedAtDesc]
  | cons m ms ih =>
    show a ∈ insertDesc m (sortByCreatedAtDesc ms) ↔ _
    rw [mem_insertDesc]
    simp only [List.mem_cons, ih]

theorem kvGet_mem {κ α : Type} [DecidableEq κ] (l : List (κ × α)) (k : κ) (v : α)
    (h : kvGet l k = some v) : (k, v) ∈ l := by
  unfold kvGet at h
  cases hf : l.find? (fun e => e.1 == k) with
  | none => rw [hf] at h; simp at h
  | some e0 =>
    have hmem := List.mem_of_find?_eq_some hf
    have hpred := List.find?_some hf
    rw [hf] at h
    simp only [Option.map_some', Option.some.injEq] at h
    have he : e0 = (k, v) := by
      cases e0 with
      | mk a b =>
        simp only at h
        simp only [beq_iff_eq] at hpred
        subst h
        simp_all
    rwa [he] at hmem

theorem markRead_ok (s : Store) (uid nid : String) (t : Nat) (n : Notification) (e : Nat)
    (h : kvGet s.details (uid, nid) = some (n, e)) :
    markNotificationAsRead s uid nid t =
      .ok ({ n with status := "READ", readAt := some t },
        { s with details := kvSet s.details (uid, nid) ({ n with status := "READ", readAt := some t }, t + SEVEN_DAYS) }) := by
  rw [markNotificationAsRead, h]

/-! ## Claims about the notification store -/

/-- C3: appending a notification to the store and then reading the
owner feed with limit at least 1 returns a record identical to the one
appended — same id, title, message, and (for the unread records the
in-app worker creates) status unread. -/
theorem C3_append_read_roundtrip (s : Store) (n : Notification) (now limit : Nat)
    (hl : 1 ≤ limit) (hs : n.status = "unread") :
    ∃ r ∈ getUserNotifications (storeInAppNotification s n now) n.userId limit,
      r.id = n.id ∧ r.title = n.title ∧ r.message = n.message ∧
      r.status = "unread" ∧ r = n := by
  refine ⟨n, ?_, rfl, rfl, rfl, hs, rfl⟩
  unfold getUserNotifications storeInAppNotification
  rw [mem_sortByCreatedAtDesc, List.mem_filterMap]
  refine ⟨n.id, ?_, ?_⟩
  · simp only [kvGet_kvSet_same, Option.getD_some]
    cases limit with
    | zero => omega
    | succ m => simp [lRangeIds, List.take_succ_cons]
  · simp [kvGet_kvSet_same]

/-- C3 witness: the round-trip at a concrete store, record and limit. -/
theorem C3_append_read_roundtrip_witness :
    ∃ r ∈ getUserNotifications (storeInAppNotification emptyStore sampleNotification 0)
        sampleNotification.userId 1,
      r.id = sampleNotification.id ∧ r.title = sampleNotification.title ∧
      r.message = sampleNotification.message ∧ r.status = "unread" ∧
      r = sampleNotification :=
  C3_append_read_roundtrip emptyStore sampleNotification 0 1 (by decide) (by decide)

/-- C4: markNotificationAsRead fails (throwing the not-found error the
controller maps to 404) exactly when the detail record is missing; on an
existing record it returns it with status READ and a non-null readAt,
and a second call on the same id succeeds again with status READ and a
set readAt. -/
theorem C4_markRead_notfound_idempotent (s : Store) (userId nid : String) (t1 t2 : Nat) :
    ((∃ err, markNotificationAsRead s userId nid t1 = .error err) ↔
       kvGet s.details (userId, nid) = none) ∧
    (∀ n e, kvGet s.details (userId, nid) = some (n, e) →
       ∃ n2 s2, markNotificationAsRead s userId nid t1 = .ok (n2, s2) ∧
         n2.status = "READ" ∧ n2.readAt = some t1 ∧ n2.readAt ≠ none ∧
         ∃ n3 s3, markNotificationAsRead s2 userId nid t2 = .ok (n3, s3) ∧
           n3.status = "READ" ∧ n3.readAt = some t2 ∧ n3.readAt ≠ none) := by
  constructor
  · constructor
    · rintro ⟨err, herr⟩
      cases hk : kvGet s.details (userId, nid) with
      | none => rfl
      | some p =>
        obtain ⟨n, e⟩ := p
        rw [markNotificationAsRead, hk] at herr
        simp at herr
    · intro hk
      exact ⟨.notFound, by rw [markNotificationAsRead, hk]⟩
  · intro n e hk
    refine ⟨_, _, markRead_ok s userId nid t1 n e hk, rfl, rfl, by simp, ?_⟩
    exact ⟨_, _, markRead_ok _ userId nid t2 _ _ (kvGet_kvSet_same _ _ _), rfl, rfl, by simp⟩

/-- C4 witness: the characterization applied at a concrete store, both
on the stored id and after the first mark. -/
theorem C4_markRead_witness :
    ∃ n2 s2, markNotificationAsRead oneNotifStore "u1" "n1" 5 = .ok (n2, s2) ∧
      n2.status = "READ" ∧ n2.readAt = some 5 ∧ n2.readAt ≠ none ∧
      ∃ n3 s3, markNotificationAsRead s2 "u1" "n1" 9 = .ok (n3, s3) ∧
        n3.status = "READ" ∧ n3.readAt = some 9 ∧ n3.readAt ≠ none :=
  (C4_markRead_notfound_idempotent oneNotifStore "u1" "n1" 5 9).2
    sampleNotification SEVEN_DAYS (by decide)

/-- C5 counterexample: the claim says markRead rewrites the detail
record with the original remaining TTL, never extending the expiry; but
on a record appended at instant 0 (expiry SEVEN_DAYS) marked read at
instant 100, the rewrite carries expiry 100 + SEVEN_DAYS, strictly later
than the original expiry. -/
theorem C5_ttl_counterexample :
    (kvGet oneNotifStore.details ("u1", "n1")).map (fun p => p.2) = some SEVEN_DAYS ∧
    ((markNotificationAsRead oneNotifStore "u1" "n1" 100).toOption.map
        fun p => (kvGet p.2.details ("u1", "n1")).map fun q => q.2) =
      some (some (100 + SEVEN_DAYS)) ∧
    SEVEN_DAYS < 100 + SEVEN_DAYS := by
  refine ⟨by decide, by decide, by decide⟩

/-- C5 amended: markRead on an existing record rewrites it with a fresh
full 7-day TTL (the expiry becomes now + SEVEN_DAYS, so it is extended
whenever time has passed since the last write), and changes no field
other than status and readAt; the feed list, the feed expiry and every
other detail key are untouched. -/
theorem C5_markRead_frame (s : Store) (userId nid : String) (now : Nat)
    (n : Notification) (e : Nat)
    (h : kvGet s.details (userId, nid) = some (n, e)) :
    ∃ n2 s2, markNotificationAsRead s userId nid now = .ok (n2, s2) ∧
      kvGet s2.details (userId, nid) = some (n2, now + SEVEN_DAYS) ∧
      n2.id = n.id ∧ n2.userId = n.userId ∧ n2.title = n.title ∧
      n2.message = n.message ∧ n2.category = n.category ∧
      n2.priority = n.priority ∧ n2.data = n.data ∧
      n2.actionUrl = n.actionUrl ∧ n2.createdAt = n.createdAt ∧
      n2.status = "READ" ∧ n2.readAt = some now ∧
      (∀ k, k ≠ (userId, nid) → kvGet s2.details k = kvGet s.details k) ∧
      s2.feeds = s.feeds ∧ s2.feedExpires = s.feedExpires := by
  refine ⟨_, _, markRead_ok s userId nid now n e h, kvGet_kvSet_same _ _ _,
    rfl, rfl, rfl, rfl, rfl, rfl, rfl, rfl, rfl, rfl, rfl, ?_, rfl, rfl⟩
  intro k hkne
  exact kvGet_kvSet_ne _ _ _ _ hkne

/-- C5 witness: the amended frame condition at a concrete store. -/
theorem C5_markRead_frame_witness :
    ∃ n2 s2, markNotificationAsRead oneNotifStore "u1" "n1" 100 = .ok (n2, s2) ∧
      kvGet s2.details ("u1", "n1") = some (n2, 100 + SEVEN_DAYS) ∧
      n2.id = sampleNotification.id ∧ n2.userId = sampleNotification.userId ∧
      n2.title = sampleNotification.title ∧
      n2.message = sampleNotification.message ∧
      n2.category = sampleNotification.category ∧
      n2.priority = sampleNotification.priority ∧
      n2.data = sampleNotification.data ∧
      n2.actionUrl = sampleNotification.actionUrl ∧
      n2.createdAt = sampleNotification.createdAt ∧
      n2.status = "READ" ∧ n2.readAt = some 100 ∧
      (∀ k, k ≠ ("u1", "n1") → kvGet s2.details k = kvGet oneNotifStore.details k) ∧
      s2.feeds = oneNotifStore.feeds ∧ s2.feedExpires = oneNotifStore.feedExpires :=
  C5_markRead_frame oneNotifStore "u1" "n1" 100 sampleNotification SEVEN_DAYS (by decide)

/-- C6: on a well-formed store (every detail record filed under its own
id, as append guarantees), after deleteNotification no read of the same
user feed, at any limit, returns a record with the deleted id. -/
theorem C6_delete_then_read (s : Store) (userId nid : String) (hwf : s.wf) (limit : Nat) :
    ∀ r ∈ getUserNotifications (deleteNotification s userId nid) userId limit,
      r.id ≠ nid := by
  intro r hr
  unfold getUserNotifications at hr
  rw [mem_sortByCreatedAtDesc, List.mem_filterMap] at hr
  obtain ⟨i, hi, hfi⟩ := hr
  obtain ⟨p, hp, hp1⟩ := Option.map_eq_some'.mp hfi
  have hdet : (deleteNotification s userId nid).details = kvDel s.details (userId, nid) := rfl
  rw [hdet] at hp
  have hmem : ((userId, i), p) ∈ kvDel s.details (userId, nid) := kvGet_mem _ _ _ hp
  have hmem2 : ((userId, i), p) ∈ s.details := List.mem_of_mem_filter hmem
  have hid : p.1.id = i := (hwf _ hmem2).1
  intro hrid
  have hinid : i = nid := by rw [← hid, hp1, hrid]
  rw [hinid, kvGet_kvDel_same] at hp
  exact Option.noConfusion hp

/-- C6 witness: deleting the only record of a concrete store and reading
at limit 10 never yields the deleted id. -/
theorem C6_delete_then_read_witness :
    ((getUserNotifications (deleteNotification oneNotifStore "u1" "n1") "u1" 10).all
      fun r => r.id != "n1") = true := by
  have h := C6_delete_then_read oneNotifStore "u1" "n1" (by decide) 10
  rw [List.all_eq_true]
  intro r hr
  simpa using h r hr

/-! ## Claims about the event router -/

theorem routed_no_validationError (env : Env) (s : String) (d : EventData)
    (hs : s ∈ EVENT_TYPES) :
    ∀ m, (processEvent env (some s) (some d)).2 ≠ some (.validationError m) := by
  intro m
  simp only [EVENT_TYPES, List.mem_cons, List.not_mem_nil, or_false] at hs
  rcases hs with rfl | rfl | rfl | rfl | rfl | rfl | rfl | rfl
  · have hred : processEvent env (some "user.registered") (some d) =
        handleUserRegistered env d := rfl
    rw [hred]; unfold handleUserRegistered
    cases d.user <;> simp
  · have hred : processEvent env (some "order.created") (some d) =
        handleOrderCreated env d := rfl
    rw [hred]; unfold handleOrderCreated
    cases d.user <;> [skip; cases d.order] <;> simp
  · have hred : processEvent env (some "order.confirmed") (some d) =
        handleOrderConfirmed env d := rfl
    rw [hred]; unfold handleOrderConfirmed
    cases d.user <;> [skip; cases d.order] <;> simp
  · have hred : processEvent env (some "order.shipped") (some d) =
        handleOrderShipped env d := rfl
    rw [hred]; unfold handleOrderShipped
    cases d.user <;> [skip; cases d.order] <;> simp
  · have hred : processEvent env (some "order.delivered") (some d) =
        handleOrderDelivered env d := rfl
    rw [hred]; unfold handleOrderDelivered
    cases d.user <;> [skip; cases d.order] <;> simp
  · have hred : processEvent env (some "order.cancelled") (some d) =
        handleOrderCancelled env d := rfl
    rw [hred]; unfold handleOrderCancelled
    cases d.user <;> [skip; cases d.order] <;> simp
  · have hred : processEvent env (some "product.low_stock") (some d) =
        handleProductLowStock env d := rfl
    rw [hred]; unfold handleProductLowStock
    cases d.product <;> simp
  · have hred : processEvent env (some "admin.action") (some d) =
        handleAdminAction env d := rfl
    rw [hred]; unfold handleAdminAction
    by_cases ha : jsTruthy env.ADMIN_EMAIL
    · simp only [ha, if_true]
      cases d.adminUser <;> simp
    · simp [ha]

/-- C2 counterexample: a user.registered payload whose user object
misses the required user.email (and user.firstName) is not rejected —
processing ends with no error and one in-app job is still submitted,
against the claim that a missing required field yields a validation
failure with zero jobs queued. -/
theorem C2_validation_counterexample :
    requiredFieldsPresent "user.registered" userRegisteredIdOnly = false ∧
    (processEvent emptyEnv (some "user.registered") (some userRegisteredIdOnly)).2 = none ∧
    ((processEvent emptyEnv (some "user.registered") (some userRegisteredIdOnly)).1).length = 1 := by
  decide

/-- C2 amended: event processing fails with a validation error exactly
when the eventType is missing or unrecognized or the data member is
absent, and in every such case zero jobs are submitted to either queue;
missing required sub-fields are not validated (they either pass through,
possibly submitting jobs, or raise a TypeError, not a validation
error). -/
theorem C2_validation_characterization (env : Env) (et : Option String)
    (data : Option EventData) :
    ((∃ m, (processEvent env et data).2 = some (.validationError m)) ↔
      (¬ EVENT_TYPES.contains (et.getD "") ∨ data = none)) ∧
    ((¬ EVENT_TYPES.contains (et.getD "") ∨ data = none) →
      (processEvent env et data).1 = []) := by
  cases et with
  | none =>
    refine ⟨?_, fun _ => rfl⟩
    constructor
    · intro _
      left
      decide
    · intro _
      exact ⟨"Invalid or missing event type", rfl⟩
  | some s =>
    by_cases hc : EVENT_TYPES.contains s
    · cases data with
      | none =>
        have hmem : s ∈ EVENT_TYPES := by simpa using hc
        refine ⟨⟨fun _ => Or.inr rfl, fun _ => ⟨"Event data is required", ?_⟩⟩, fun _ => ?_⟩
        · simp [processEvent, hmem]
        · simp [processEvent, hmem]
      | some d =>
        have hmem : s ∈ EVENT_TYPES := by
          simpa using hc
        refine ⟨⟨?_, ?_⟩, ?_⟩
        · rintro ⟨m, hm⟩
          exact absurd hm (routed_no_validationError env s d hmem m)
        · rintro (h | h)
          · exact absurd hc (by simpa using h)
          · exact Option.noConfusion h
        · rintro (h | h)
          · exact absurd hc (by simpa using h)
          · exact Option.noConfusion h
    · have hnmem : s ∉ EVENT_TYPES := by simpa using hc
      refine ⟨⟨fun _ => Or.inl (by simpa using hc),
        fun _ => ⟨"Invalid or missing event type", ?_⟩⟩, fun _ => ?_⟩
      · simp [processEvent, hnmem]
      · simp [processEvent, hnmem]

/-- C2 witness: the characterization applied at a concrete unrecognized
event type — a validation failure with zero submitted jobs. -/
theorem C2_validation_witness :
    (∃ m, (processEvent emptyEnv (some "order.melted") none).2 =
      some (.validationError m)) ∧
    (processEvent emptyEnv (some "order.melted") none).1 = [] :=
  ⟨(C2_validation_characterization emptyEnv (some "order.melted") none).1.mpr
      (Or.inl (by decide)),
   (C2_validation_characterization emptyEnv (some "order.melted") none).2
      (Or.inl (by decide))⟩

/-- C1 counterexample: an order.created payload with every published
required field (order.id, order.total, order.items, user.id, user.email)
but no user.firstName routes with no error yet yields zero email jobs,
where the claim demands exactly one order-confirmation email job for
every valid payload. -/
theorem C1_routing_counterexample :
    requiredFieldsPresent "order.created" orderCreatedNoFirstName = true ∧
    (processEvent emptyEnv (some "order.created") (some orderCreatedNoFirstName)).2 = none ∧
    emailActions (processEvent emptyEnv (some "order.created") (some orderCreatedNoFirstName)).1 = [] ∧
    inAppActions (processEvent emptyEnv (some "order.created") (some orderCreatedNoFirstName)).1 =
      ["order-created-notification"] := by
  decide

/-- C1 amended: for every payload carrying the published required fields
of its event type, routing yields exactly the in-app jobs of the spec's
table; the email rows of user.registered, order.created and
order.shipped are produced exactly when user.email and user.firstName
are both truthy (the code guards each email job on both, and firstName
is not a required field of the two order events); product.low_stock
always yields exactly one admin alert email and no in-app job, and
admin.action yields exactly one admin alert email when ADMIN_EMAIL is
configured truthy and zero jobs otherwise. -/
theorem C1_routing_table (env : Env) (d : EventData) :
    (requiredFieldsPresent "user.registered" d = true →
      (processEvent env (some "user.registered") (some d)).2 = none ∧
      emailActions (processEvent env (some "user.registered") (some d)).1 =
        (if emailGuard d then ["welcome-email"] else []) ∧
      inAppActions (processEvent env (some "user.registered") (some d)).1 =
        ["welcome-notification"]) ∧
    (requiredFieldsPresent "order.created" d = true →
      (processEvent env (some "order.created") (some d)).2 = none ∧
      emailActions (processEvent env (some "order.created") (some d)).1 =
        (if emailGuard d then ["order-confirmation"] else []) ∧
      inAppActions (processEvent env (some "order.created") (some d)).1 =
        ["order-created-notification"]) ∧
    (requiredFieldsPresent "order.confirmed" d = true →
      (processEvent env (some "order.confirmed") (some d)).2 = none ∧
      emailActions (processEvent env (some "order.confirmed") (some d)).1 = [] ∧
      inAppActions (processEvent env (some "order.confirmed") (some d)).1 =
        ["order-confirmed-notification"]) ∧
    (requiredFieldsPresent "order.shipped" d = true →
      (processEvent env (some "order.shipped") (some d)).2 = none ∧
      emailActions (processEvent env (some "order.shipped") (some d)).1 =
        (if emailGuard d then ["order-shipped-email"] else []) ∧
      inAppActions (processEvent env (some "order.shipped") (some d)).1 =
        ["order-shipped-notification"]) ∧
    (requiredFieldsPresent "order.delivered" d = true →
      (processEvent env (some "order.delivered") (some d)).2 = none ∧
      emailActions (processEvent env (some "order.delivered") (some d)).1 = [] ∧
      inAppActions (processEvent env (some "order.delivered") (some d)).1 =
        ["order-delivered-notification"]) ∧
    (requiredFieldsPresent "order.cancelled" d = true →
      (processEvent env (some "order.cancelled") (some d)).2 = none ∧
      emailActions (processEvent env (some "order.cancelled") (some d)).1 = [] ∧
      inAppActions (processEvent env (some "order.cancelled") (some d)).1 =
        ["order-cancelled-notification"]) ∧
    (requiredFieldsPresent "product.low_stock" d = true →
      (processEvent env (some "product.low_stock") (some d)).2 = none ∧
      emailActions (processEvent env (some "product.low_stock") (some d)).1 =
        ["low-stock-alert"] ∧
      inAppActions (processEvent env (some "product.low_stock") (some d)).1 = []) ∧
    (requiredFieldsPresent "admin.action" d = true →
      (processEvent env (some "admin.action") (some d)).2 = none ∧
      emailActions (processEvent env (some "admin.action") (some d)).1 =
        (if jsTruthy env.ADMIN_EMAIL then ["admin-action-alert"] else []) ∧
      inAppActions (processEvent env (some "admin.action") (some d)).1 = []) := by
  refine ⟨?_, ?_, ?_, ?_, ?_, ?_, ?_, ?_⟩
  · intro h
    have hred : processEvent env (some "user.registered") (some d) =
        handleUserRegistered env d := rfl
    rw [hred]
    have hreq : requiredFieldsPresent "user.registered" d =
        (d.user.any fun u => u.id.isSome && u.email.isSome && u.firstName.isSome) := rfl
    rw [hreq] at h
    cases hu : d.user with
    | none => rw [hu] at h; simp at h
    | some u =>
      unfold handleUserRegistered
      rw [hu]
      by_cases hg : (jsTruthy u.email && jsTruthy u.firstName) = true
      · simp [hg, emailActions, inAppActions, emailGuard, hu]
      · simp [hg, emailActions, inAppActions, emailGuard, hu]
  · intro h
    have hred : processEvent env (some "order.created") (some d) =
        handleOrderCreated env d := rfl
    rw [hred]
    have hreq : requiredFieldsPresent "order.created" d =
        ((d.order.any fun o => o.id.isSome && o.total.isSome && o.items.isSome) &&
          (d.user.any fun u => u.id.isSome && u.email.isSome)) := rfl
    rw [hreq] at h
    cases hu : d.user with
    | none => rw [hu] at h; simp at h
    | some u =>
      cases ho : d.order with
      | none => rw [ho] at h; simp at h
      | some o =>
        unfold handleOrderCreated
        rw [hu, ho]
        by_cases hg : (jsTruthy u.email && jsTruthy u.firstName) = true
        · simp [hg, emailActions, inAppActions, emailGuard, hu]
        · simp [hg, emailActions, inAppActions, emailGuard, hu]
  · intro h
    have hred : processEvent env (some "order.confirmed") (some d) =
        handleOrderConfirmed env d := rfl
    rw [hred]
    have hreq : requiredFieldsPresent "order.confirmed" d =
        ((d.order.any fun o => o.id.isSome) && (d.user.any fun u => u.id.isSome)) := rfl
    rw [hreq] at h
    cases hu : d.user with
    | none => rw [hu] at h; simp at h
    | some u =>
      cases ho : d.order with
      | none => rw [ho] at h; simp at h
      | some o =>
        unfold handleOrderConfirmed
        rw [hu, ho]
        simp [emailActions, inAppActions]
  · intro h
    have hred : processEvent env (some "order.shipped") (some d) =
        handleOrderShipped env d := rfl
    rw [hred]
    have hreq : requiredFieldsPresent "order.shipped" d =
        ((d.order.any fun o => o.id.isSome) && (d.user.any fun u => u.id.isSome) &&
          d.trackingNumber.isSome) := rfl
    rw [hreq] at h
    cases hu : d.user with
    | none => rw [hu] at h; simp at h
    | some u =>
      cases ho : d.order with
      | none => rw [ho] at h; simp at h
      | some o =>
        unfold handleOrderShipped
        rw [hu, ho]
        by_cases hg : (jsTruthy u.email && jsTruthy u.firstName) = true
        · simp [hg, emailActions, inAppActions, emailGuard, hu]
        · simp [hg, emailActions, inAppActions, emailGuard, hu]
  · intro h
    have hred : processEvent env (some "order.delivered") (some d) =
        handleOrderDelivered env d := rfl
    rw [hred]
    have hreq : requiredFieldsPresent "order.delivered" d =
        ((d.order.any fun o => o.id.isSome) && (d.user.any fun u => u.id.isSome)) := rfl
    rw [hreq] at h
    cases hu : d.user with
    | none => rw [hu] at h; simp at h
    | some u =>
      cases ho : d.order with
      | none => rw [ho] at h; simp at h
      | some o =>
        unfold handleOrderDelivered
        rw [hu, ho]
        simp [emailActions, inAppActions]
  · intro h
    have hred : processEvent env (some "order.cancelled") (some d) =
        handleOrderCancelled env d := rfl
    rw [hred]
    have hreq : requiredFieldsPresent "order.cancelled" d =
        ((d.order.any fun o => o.id.isSome) && (d.user.any fun u => u.id.isSome)) := rfl
    rw [hreq] at h
    cases hu : d.user with
    | none => rw [hu] at h; simp at h
    | some u =>
      cases ho : d.order with
      | none => rw [ho] at h; simp at h
      | some o =>
        unfold handleOrderCancelled
        rw [hu, ho]
        simp [emailActions, inAppActions]
  · intro h
    have hred : processEvent env (some "product.low_stock") (some d) =
        handleProductLowStock env d := rfl
    rw [hred]
    have hreq : requiredFieldsPresent "product.low_stock" d =
        ((d.product.any fun p => p.id.isSome && p.name.isSome) &&
          d.currentStock.isSome && d.threshold.isSome) := rfl
    rw [hreq] at h
    cases hp : d.product with
    | none => rw [hp] at h; simp at h
    | some p =>
      unfold handleProductLowStock
      rw [hp]
      simp [emailActions, inAppActions]
  · intro h
    have hred : processEvent env (some "admin.action") (some d) =
        handleAdminAction env d := rfl
    rw [hred]
    have hreq : requiredFieldsPresent "admin.action" d =
        (d.action.isSome && (d.adminUser.any fun a => a.email.isSome)) := rfl
    rw [hreq] at h
    cases hau : d.adminUser with
    | none => rw [hau] at h; simp at h
    | some au =>
      unfold handleAdminAction
      rw [hau]
      by_cases ha : jsTruthy env.ADMIN_EMAIL
      · simp [ha, emailActions, inAppActions]
      · simp [ha, emailActions, inAppActions]

/-- C1 witness: the amended routing table at a fully valid order.created
payload (firstName present): one order-confirmation email job and one
order-created in-app job, no error. -/
theorem C1_routing_table_witness :
    (processEvent emptyEnv (some "order.created") (some orderCreatedFull)).2 = none ∧
    emailActions (processEvent emptyEnv (some "order.created") (some orderCreatedFull)).1 =
      (if emailGuard orderCreatedFull then ["order-confirmation"] else []) ∧
    inAppActions (processEvent emptyEnv (some "order.created") (some orderCreatedFull)).1 =
      ["order-created-notification"] :=
  (C1_routing_table emptyEnv orderCreatedFull).2.1 (by decide)

/-- C10: the unread count returned by the user-notifications endpoint is
recomputed from the feed at the default fetch limit of 50, whatever limit
the caller used for the page; on a feed of 51 unread notifications the
reported count is therefore smaller than the true unread total. -/
theorem C10_unreadCount_default_limit :
    (∀ s userId limit unreadOnly,
       (getUserNotificationsController s userId limit unreadOnly).2.1 =
         ((getUserNotifications s userId 50).filter fun n => n.status == "unread").length) ∧
    (∃ s userId, Store.wf s ∧ getUnreadCount s userId < totalUnread s userId) := by
  constructor
  · intro s userId limit unreadOnly
    rfl
  · refine ⟨fiftyOneStore, "u1", by decide, by decide⟩

/-! ## Claims about the queue runtime -/

theorem le_pickBetter_left (a b : QJob) : a.priority ≤ (pickBetter a b).priority := by
  unfold pickBetter
  split <;> omega

theorem le_pickBetter_right (a b : QJob) : b.priority ≤ (pickBetter a b).priority := by
  unfold pickBetter
  split <;> omega

theorem foldl_pickBetter_spec (js : List QJob) (j : QJob)
    (hp : (j :: js).Pairwise fun a c => a.submitIndex < c.submitIndex) :
    js.foldl pickBetter j ∈ j :: js ∧
    (∀ x ∈ j :: js, x.priority ≤ (js.foldl pickBetter j).priority) ∧
    (∀ x ∈ j :: js, x.priority = (js.foldl pickBetter j).priority →
      (js.foldl pickBetter j).submitIndex ≤ x.submitIndex) := by
  induction js generalizing j with
  | nil =>
    refine ⟨List.mem_cons_self _ _, ?_, ?_⟩
    · intro x hx
      rcases List.mem_cons.mp hx with heq | hx2
      · subst heq; exact le_refl _
      · cases hx2
    · intro x hx _
      rcases List.mem_cons.mp hx with heq | hx2
      · subst heq; exact le_refl _
      · cases hx2
  | cons b bs ih =>
    rw [List.pairwise_cons] at hp
    obtain ⟨hj, hpb⟩ := hp
    have hjb : j.submitIndex < b.submitIndex := hj b (List.mem_cons_self _ _)
    rw [List.pairwise_cons] at hpb
    obtain ⟨hb, hpbs⟩ := hpb
    have hp2 : (pickBetter j b :: bs).Pairwise fun a c => a.submitIndex < c.submitIndex := by
      rw [List.pairwise_cons]
      refine ⟨?_, hpbs⟩
      intro x hx
      unfold pickBetter
      split
      · exact hb x hx
      · exact hj x (List.mem_cons_of_mem _ hx)
    obtain ⟨hmem, hmax, hfifo⟩ := ih (pickBetter j b) hp2
    have hfold : (b :: bs).foldl pickBetter j = bs.foldl pickBetter (pickBetter j b) := rfl
    rw [hfold]
    have hpble : (pickBetter j b).priority ≤ (bs.foldl pickBetter (pickBetter j b)).priority :=
      hmax _ (List.mem_cons_self _ _)
    have hjle : j.priority ≤ (pickBetter j b).priority := le_pickBetter_left j b
    have hble : b.priority ≤ (pickBetter j b).priority := le_pickBetter_right j b
    refine ⟨?_, ?_, ?_⟩
    · rcases List.mem_cons.mp hmem with heq | hmem2
      · by_cases hcase : b.priority > j.priority
        · have hpb : pickBetter j b = b := by
            unfold pickBetter
            rw [if_pos hcase]
          rw [heq, hpb]
          exact List.mem_cons_of_mem _ (List.mem_cons_self _ _)
        · have hpb : pickBetter j b = j := by
            unfold pickBetter
            rw [if_neg hcase]
          rw [heq, hpb]
          exact List.mem_cons_self _ _
      · exact List.mem_cons_of_mem _ (List.mem_cons_of_mem _ hmem2)
    · intro x hx
      rcases List.mem_cons.mp hx with heq | hx2
      · rw [heq]
        exact le_trans hjle hpble
      · rcases List.mem_cons.mp hx2 with heq | hx3
        · rw [heq]
          exact le_trans hble hpble
        · exact hmax x (List.mem_cons_of_mem _ hx3)
    · intro x hx hpx
      rcases List.mem_cons.mp hx with heq | hx2
      · rw [heq] at hpx ⊢
        by_cases hcase : b.priority > j.priority
        · have hpri : (pickBetter j b).priority = b.priority := by
            unfold pickBetter
            rw [if_pos hcase]
          omega
        · have hpb : pickBetter j b = j := by
            unfold pickBetter
            rw [if_neg hcase]
          have hpri : (pickBetter j b).priority = j.priority := by rw [hpb]
          have hidx : (pickBetter j b).submitIndex = j.submitIndex := by rw [hpb]
          have hres := hfifo (pickBetter j b) (List.mem_cons_self _ _) (by omega)
          omega
      · rcases List.mem_cons.mp hx2 with heq | hx3
        · rw [heq] at hpx ⊢
          by_cases hcase : b.priority > j.priority
          · have hpb : pickBetter j b = b := by
              unfold pickBetter
              rw [if_pos hcase]
            have hpri : (pickBetter j b).priority = b.priority := by rw [hpb]
            have hidx : (pickBetter j b).submitIndex = b.submitIndex := by rw [hpb]
            have hres := hfifo (pickBetter j b) (List.mem_cons_self _ _) (by omega)
            omega
          · have hpb : pickBetter j b = j := by
              unfold pickBetter
              rw [if_neg hcase]
            have hpri : (pickBetter j b).priority = j.priority := by rw [hpb]
            have hidx : (pickBetter j b).submitIndex = j.submitIndex := by rw [hpb]
            have hres := hfifo (pickBetter j b) (List.mem_cons_self _ _) (by omega)
            omega
        · exact hfifo x (List.mem_cons_of_mem _ hx3) hpx

/-- C8: against the spec-modelled dequeue of the Bull runtime — on a
queue whose job list is in submission order, the dequeued job is
eligible (Waiting and past its eligibleAt = submission now + delayMs,
as qAdd sets), no eligible job has higher priority, and among
equal-priority eligible jobs the dequeued one was submitted first;
the src priority mapping orders CRITICAL above HIGH above MEDIUM above
LOW. -/
theorem C8_dequeue_order (q : BullQueue) (now : Nat) (j : QJob)
    (hq : q.jobs.Pairwise fun a c => a.submitIndex < c.submitIndex)
    (h : qNextJob q now = some j) :
    (j ∈ q.jobs ∧ j.state = .waiting ∧ j.eligibleAt ≤ now) ∧
    (∀ x ∈ q.jobs, x.state = .waiting → x.eligibleAt ≤ now →
      x.priority ≤ j.priority ∧
      (x.priority = j.priority → j.submitIndex ≤ x.submitIndex)) ∧
    (∀ (q2 : BullQueue) (nm : String) (pr : Int) (delay t : Nat),
      (qAdd q2 nm pr delay t).1.eligibleAt = t + delay ∧
      (qAdd q2 nm pr delay t).1.state = .waiting) ∧
    (getPriorityValue "LOW" < getPriorityValue "MEDIUM" ∧
      getPriorityValue "MEDIUM" < getPriorityValue "HIGH" ∧
      getPriorityValue "HIGH" < getPriorityValue "CRITICAL") := by
  unfold qNextJob at h
  cases hf : q.jobs.filter (fun x => eligible x now) with
  | nil =>
    rw [hf] at h
    cases h
  | cons j0 rest =>
    rw [hf] at h
    obtain rfl : rest.foldl pickBetter j0 = j := Option.some.inj h
    have hpf := hq.filter (fun x => eligible x now)
    rw [hf] at hpf
    obtain ⟨hmem, hmax, hfifo⟩ := foldl_pickBetter_spec rest j0 hpf
    rw [← hf] at hmem
    have helig : eligible (rest.foldl pickBetter j0) now = true :=
      (List.mem_filter.mp hmem).2
    simp only [eligible, Bool.and_eq_true, beq_iff_eq, decide_eq_true_eq] at helig
    refine ⟨⟨List.mem_of_mem_filter hmem, helig.1, helig.2⟩, ?_, fun _ _ _ _ _ => ⟨rfl, rfl⟩,
      by decide⟩
    intro x hx hxs hxe
    have hxf : x ∈ q.jobs.filter (fun x => eligible x now) :=
      List.mem_filter.mpr ⟨hx, by simp [eligible, hxs, hxe]⟩
    rw [hf] at hxf
    exact ⟨hmax x hxf, fun hpe => hfifo x hxf hpe⟩

/-- C8 witness: on a concrete queue holding an eligible LOW job
submitted before an eligible CRITICAL one, the dequeue invariants hold
of the dequeued CRITICAL job. -/
theorem C8_dequeue_order_witness :
    (criticalJob ∈ twoJobQueue.jobs ∧ criticalJob.state = .waiting ∧
      criticalJob.eligibleAt ≤ 5) ∧
    (∀ x ∈ twoJobQueue.jobs, x.state = .waiting → x.eligibleAt ≤ 5 →
      x.priority ≤ criticalJob.priority ∧
      (x.priority = criticalJob.priority → criticalJob.submitIndex ≤ x.submitIndex)) ∧
    (∀ (q2 : BullQueue) (nm : String) (pr : Int) (delay t : Nat),
      (qAdd q2 nm pr delay t).1.eligibleAt = t + delay ∧
      (qAdd q2 nm pr delay t).1.state = .waiting) ∧
    (getPriorityValue "LOW" < getPriorityValue "MEDIUM" ∧
      getPriorityValue "MEDIUM" < getPriorityValue "HIGH" ∧
      getPriorityValue "HIGH" < getPriorityValue "CRITICAL") :=
  C8_dequeue_order twoJobQueue 5 criticalJob (by decide) (by decide)

set_option maxHeartbeats 1600000 in
/-- C7: against the spec-modelled Bull runtime configured from the src
RETRY_SETTINGS — an email job failing 3 times (the configured
maxAttempts) and an in-app job failing 2 times reach terminal Failed
with the attempt counter at maxAttempts, appear in the bounded failed
listing, are never dequeued again, and a bulk retry re-submits them
Waiting with the attempt counter reset to 0 and maxAttempts intact. -/
theorem C7_terminal_failed_bulk_retry (tp : String) (pr : Option Int) (delay : Option Nat)
    (now t1 t2 t3 s1 s2 : Nat) :
    (RETRY_SETTINGS_EMAIL.attempts = 3 ∧ RETRY_SETTINGS_IN_APP.attempts = 2 ∧
      (addEmailJob emailQueueInit tp pr delay now).1.maxAttempts = 3 ∧
      (addInAppJob inAppQueueInit pr delay now).1.maxAttempts = 2) ∧
    (∃ j2, getJob (emailFailScenario tp pr delay now t1 t2 t3) 1 = some j2 ∧
      j2.state = .failed ∧ j2.attemptsMade = 3 ∧ j2.maxAttempts = 3 ∧
      j2 ∈ qGetFailed (emailFailScenario tp pr delay now t1 t2 t3) ∧
      (∀ t, qNextJob (emailFailScenario tp pr delay now t1 t2 t3) t = none) ∧
      (∃ j3, getJob (retryFailedJobs (emailFailScenario tp pr delay now t1 t2 t3)).1 1 =
          some j3 ∧
        j3.state = .waiting ∧ j3.attemptsMade = 0 ∧ j3.maxAttempts = 3)) ∧
    (∃ j2, getJob (inAppFailScenario pr delay now s1 s2) 1 = some j2 ∧
      j2.state = .failed ∧ j2.attemptsMade = 2 ∧ j2.maxAttempts = 2 ∧
      j2 ∈ qGetFailed (inAppFailScenario pr delay now s1 s2) ∧
      (∀ t, qNextJob (inAppFailScenario pr delay now s1 s2) t = none) ∧
      (∃ j3, getJob (retryFailedJobs (inAppFailScenario pr delay now s1 s2)).1 1 = some j3 ∧
        j3.state = .waiting ∧ j3.attemptsMade = 0 ∧ j3.maxAttempts = 2)) := by
  refine ⟨⟨rfl, rfl, rfl, rfl⟩, ?_, ?_⟩
  · refine ⟨_, rfl, rfl, rfl, rfl, ?_, fun t => rfl, _, rfl, rfl, rfl, rfl⟩
    exact List.Mem.head _
  · refine ⟨_, rfl, rfl, rfl, rfl, ?_, fun t => rfl, _, rfl, rfl, rfl, rfl⟩
    exact List.Mem.head _

/-! ## Claim about the template renderer -/

theorem pos_length_append_left (s t : String) (h : 0 < s.length) : 0 < (s ++ t).length := by
  rw [String.length_append]
  omega

theorem concat_ne_empty (s t : String) (h : 0 < s.length) : s ++ t ≠ "" := by
  intro he
  have hl := congrArg String.length he
  rw [String.length_append] at hl
  have h0 : ("" : String).length = 0 := rfl
  rw [h0] at hl
  omega

/-- C9: renderTemplate is total — any load or render failure is caught
and the diagnostic body carrying the serialized data is returned, and it
is non-empty; in the repository layout (no template files on disk, cold
cache) every name resolves to a fallback whose rendering is returned and
is non-empty HTML; a name outside the four built-ins falls back to the
generic passthrough. -/
theorem C9_render_total (env : TemplateEnv) (name : String) (d : TemplateData) :
    ((loadTemplate env name = .error () ∨
        (∃ t, loadTemplate env name = .ok t ∧ t d = .error ())) →
      (∃ pre post, renderTemplate env name d = pre ++ jsonStringify d ++ post) ∧
      renderTemplate env name d ≠ "") ∧
    (env.cache name = none → env.read name = .enoent →
      ∃ html, getFallbackTemplate name d = .ok html ∧
        renderTemplate env name d = html ∧ html ≠ "") ∧
    (name ∉ (["welcome", "order-confirmation", "order-shipped", "admin-alert"] :
        List String) →
      getFallbackTemplate name = fbGeneric) := by
  refine ⟨?_, ?_, ?_⟩
  · have hdiag : ∀ hres : renderTemplate env name d = diagnosticHtml d,
        (∃ pre post, renderTemplate env name d = pre ++ jsonStringify d ++ post) ∧
        renderTemplate env name d ≠ "" := by
      intro hres
      rw [hres]
      constructor
      · unfold diagnosticHtml
        exact ⟨_, _, rfl⟩
      · unfold diagnosticHtml
        refine concat_ne_empty _ _ ?_
        repeat apply pos_length_append_left
        decide
    rintro (herr | ⟨t, ht, htd⟩)
    · refine hdiag ?_
      unfold renderTemplate
      rw [herr]
    · refine hdiag ?_
      unfold renderTemplate
      rw [ht]
      show (match t d with
        | .ok html => html
        | .error _ => diagnosticHtml d) = diagnosticHtml d
      rw [htd]
  · intro hcache hread
    have hload : loadTemplate env name = .ok (getFallbackTemplate name) := by
      unfold loadTemplate
      rw [hcache, hread]
    have hrender : ∀ html, getFallbackTemplate name d = .ok html →
        renderTemplate env name d = html := by
      intro html hok
      unfold renderTemplate
      rw [hload]
      show (match getFallbackTemplate name d with
        | .ok html => html
        | .error _ => diagnosticHtml d) = html
      rw [hok]
    by_cases h1 : name = "welcome"
    · subst h1
      refine ⟨_, rfl, hrender _ rfl, ?_⟩
      refine concat_ne_empty _ _ ?_
      repeat apply pos_length_append_left
      decide
    · by_cases h2 : name = "order-confirmation"
      · subst h2
        refine ⟨_, rfl, hrender _ rfl, ?_⟩
        refine concat_ne_empty _ _ ?_
        repeat apply pos_length_append_left
        decide
      · by_cases h3 : name = "order-shipped"
        · subst h3
          refine ⟨_, rfl, hrender _ rfl, ?_⟩
          refine concat_ne_empty _ _ ?_
          repeat apply pos_length_append_left
          decide
        · by_cases h4 : name = "admin-alert"
          · subst h4
            refine ⟨_, rfl, hrender _ rfl, ?_⟩
            refine concat_ne_empty _ _ ?_
            repeat apply pos_length_append_left
            decide
          · have hfb : getFallbackTemplate name = fbGeneric := by
              unfold getFallbackTemplate
              simp only [if_neg h1, if_neg h2, if_neg h3, if_neg h4]
            have hok : getFallbackTemplate name d = fbGeneric d := by rw [hfb]
            refine ⟨_, hok, hrender _ hok, ?_⟩
            refine concat_ne_empty _ _ ?_
            repeat apply pos_length_append_left
            decide
  · intro hname
    simp only [List.mem_cons, List.not_mem_nil, or_false, not_or] at hname
    obtain ⟨h1, h2, h3, h4⟩ := hname
    unfold getFallbackTemplate
    simp only [if_neg h1, if_neg h2, if_neg h3, if_neg h4]

/-- C9 witness: the spec scenario — rendering a nonexistent template
name against the repository layout returns the non-empty generic
fallback HTML and does not throw. -/
theorem C9_render_total_witness :
    ∃ html, getFallbackTemplate "nonexistent-template" sampleTemplateData = .ok html ∧
      renderTemplate noFilesTemplateEnv "nonexistent-template" sampleTemplateData = html ∧
      html ≠ "" :=
  (C9_render_total noFilesTemplateEnv "nonexistent-template" sampleTemplateData).2.1 rfl rfl

end ECommerce
